import Mathlib

/-!
Verification of the sampling-and-interaction core of a Rust hardware
telemetry dashboard (rusted_jetson), by shallow embedding.

Conventions used throughout:
* Rust machine integers (`u64`, `u32`, `u8`) are modelled as `Nat`; where the
  source can wrap we take the result `% 2 ^ w` explicitly, and Rust
  `saturating_sub` on unsigned integers is exactly `Nat` subtraction.
* Rust `f32`/`f64` arithmetic on values derived from integer counters is
  modelled exactly over `ℚ` (the algebraic value the code computes).
* Filesystem reads are factored out as explicit inputs: a collector that in
  Rust reads pseudo-files becomes a function of the parsed file contents, or
  of a small filesystem model (`read : path → Option content`, directory
  listings as lists of entry names).
-/

namespace RustedJetson

/-- Raw CPU time counters for one core, as parsed from one `cpuN` line of
`/proc/stat` (struct `CpuTimeValues` in `src/modules/cpu.rs`). -/
structure CpuTimeValues where
  user : Nat
  nice : Nat
  system : Nat
  idle : Nat
  iowait : Nat
  irq : Nat
  softirq : Nat
deriving DecidableEq, Repr

/-- `CpuTimeValues::total`: total CPU time. -/
def CpuTimeValues.total (v : CpuTimeValues) : Nat :=
  v.user + v.nice + v.system + v.idle + v.iowait + v.irq + v.softirq

/-- `CpuTimeValues::busy`: busy (non-idle) CPU time. -/
def CpuTimeValues.busy (v : CpuTimeValues) : Nat :=
  v.user + v.nice + v.system + v.irq + v.softirq

/-- The per-core data `read_cpu_cores_info` produces before any usage is
assigned: index, frequency and governor from `/proc/cpuinfo` and sysfs. -/
structure CpuCoreInfo where
  index : Nat
  frequency : Nat
  governor : String
deriving DecidableEq, Repr

/-- Struct `CpuCore` in `src/modules/cpu.rs`; `usage` (an `f32` in Rust) is
modelled exactly over `ℚ`. -/
structure CpuCore where
  index : Nat
  usage : ℚ
  frequency : Nat
  governor : String
deriving DecidableEq, Repr

/-- Struct `CpuStats` in `src/modules/cpu.rs`. -/
structure CpuStats where
  usage : ℚ
  frequency : Nat
  cores : List CpuCore
deriving DecidableEq, Repr

/-- A core as constructed by `read_cpu_cores_info` / `read_cpu_cores`:
`usage` starts at `0.0`. -/
def mkCoreFromInfo (ci : CpuCoreInfo) : CpuCore :=
  { index := ci.index, usage := 0, frequency := ci.frequency, governor := ci.governor }

/-- The overall-usage aggregation shared by `CpuStats::get` and
`CpuMonitor::get_stats`: average of the per-core usages when the core list
is non-empty, `0.0` otherwise. -/
def avgUsage (cores : List CpuCore) : ℚ :=
  if cores.isEmpty then 0 else (cores.map CpuCore.usage).sum / cores.length

/-- The delta loop of `CpuMonitor::get_stats`: for each index `i` of
`zip(current, previous)`, if the saturating total delta is positive and
`i` is a valid core index, set that core's usage to
`(delta_busy / delta_total) * 100`. The pair list carries
`(current, previous)` in that order. -/
def applyDeltas : List CpuCore → List (CpuTimeValues × CpuTimeValues) → List CpuCore
  | [], _ => []
  | cs, [] => cs
  | c :: cs, (curr, prev) :: ps =>
      (if 0 < curr.total - prev.total then
        { c with usage := ((curr.busy - prev.busy : Nat) : ℚ) / ((curr.total - prev.total : Nat) : ℚ) * 100 }
      else c) :: applyDeltas cs ps

/-- `CpuMonitor::get_stats` with the two filesystem reads factored out:
`currentValues` is what `read_cpu_time_values` parsed from `/proc/stat`,
`coresInfo` what `read_cpu_cores_info` parsed from `/proc/cpuinfo` and
sysfs, and `prevValues` is the monitor's stored `prev_values`. Returns the
stats together with the monitor's new `prev_values`. -/
def CpuMonitor.getStats (prevValues currentValues : List CpuTimeValues)
    (coresInfo : List CpuCoreInfo) : CpuStats × List CpuTimeValues :=
  let cores0 := coresInfo.map mkCoreFromInfo
  let cores :=
    if ¬prevValues.isEmpty ∧ prevValues.length = currentValues.length then
      applyDeltas cores0 (currentValues.zip prevValues)
    else cores0
  ({ usage := avgUsage cores, frequency := 0, cores := cores }, currentValues)

/-- The usage-assignment zip at the end of `read_cpu_cores`: the `i`-th core
receives the `i`-th entry of the usage vector; extra cores keep usage `0`,
extra usages are dropped. -/
def assignUsages : List CpuCore → List ℚ → List CpuCore
  | cs, [] => cs
  | [], _ => []
  | c :: cs, u :: us => { c with usage := u } :: assignUsages cs us

/-- The `Ok` result of `read_cpu_cores`: cores built with usage `0`, then
usages from `read_cpu_usage` zipped in (`none` models a failed
`read_cpu_usage`, which leaves all usages at `0`). -/
def readCpuCores (coresInfo : List CpuCoreInfo) (usageVec : Option (List ℚ)) :
    List CpuCore :=
  let cores0 := coresInfo.map mkCoreFromInfo
  match usageVec with
  | some us => assignUsages cores0 us
  | none => cores0

/-- `CpuStats::get`, with the `read_cpu_cores` result factored out
(`none` models a failed read, which leaves the default empty core list). -/
def CpuStats.get (coresRead : Option (List CpuCore)) : CpuStats :=
  let cores := match coresRead with
    | some cs => cs
    | none => []
  { usage := avgUsage cores, frequency := 0, cores := cores }

/-- The per-core usage value the amended specification predicts for one pair
of consecutive snapshots: saturating deltas, `100 * Δbusy / Δtotal` when
`Δtotal > 0`, and `0` otherwise. -/
def specCoreUsage (prev curr : CpuTimeValues) : ℚ :=
  if 0 < curr.total - prev.total then
    100 * ((curr.busy - prev.busy : Nat) : ℚ) / ((curr.total - prev.total : Nat) : ℚ)
  else 0

lemma avgUsage_nil : avgUsage [] = 0 := rfl

lemma avgUsage_of_ne_nil (cores : List CpuCore) (h : cores ≠ []) :
    avgUsage cores = (cores.map CpuCore.usage).sum / cores.length := by
  simp [avgUsage, List.isEmpty_iff, h]

lemma avgUsage_of_all_zero (cores : List CpuCore)
    (h : ∀ c ∈ cores, c.usage = 0) : avgUsage cores = 0 := by
  unfold avgUsage
  split
  · rfl
  · have hsum : (cores.map CpuCore.usage).sum = 0 := by
      apply List.sum_eq_zero
      intro x hx
      rcases List.mem_map.mp hx with ⟨c, hc, rfl⟩
      exact h c hc
    rw [hsum]
    simp

lemma applyDeltas_get? (cs : List CpuCore) (ps : List (CpuTimeValues × CpuTimeValues))
    (i : Nat) :
    (applyDeltas cs ps).get? i =
      match cs.get? i, ps.get? i with
      | none, _ => none
      | some c, none => some c
      | some c, some (curr, prev) =>
          some (if 0 < curr.total - prev.total then
            { c with usage := ((curr.busy - prev.busy : Nat) : ℚ) / ((curr.total - prev.total : Nat) : ℚ) * 100 }
          else c) := by
  induction cs generalizing ps i with
  | nil => cases ps <;> simp [applyDeltas]
  | cons c cs ih =>
    cases ps with
    | nil =>
      cases i with
      | zero => rfl
      | succ n =>
        simp only [applyDeltas, List.get?_cons_succ]
        cases h : cs.get? n <;> rw [List.get?_nil]
    | cons p ps =>
      obtain ⟨curr, prev⟩ := p
      cases i with
      | zero => rfl
      | succ n =>
        simp only [applyDeltas, List.get?_cons_succ]
        exact ih ps n

lemma zip_get?_eq {α β : Type} (l₁ : List α) (l₂ : List β) (i : Nat)
    (a : α) (b : β) (h₁ : l₁.get? i = some a) (h₂ : l₂.get? i = some b) :
    (l₁.zip l₂).get? i = some (a, b) := by
  induction l₁ generalizing l₂ i with
  | nil => simp at h₁
  | cons x xs ih =>
    cases l₂ with
    | nil => simp at h₂
    | cons y ys =>
      cases i with
      | zero =>
        rw [List.get?_cons_zero, Option.some_inj] at h₁ h₂
        subst h₁
        subst h₂
        rfl
      | succ n =>
        rw [List.get?_cons_succ] at h₁ h₂
        rw [List.zip_cons_cons, List.get?_cons_succ]
        exact ih ys n h₁ h₂

lemma getStats_cores_reset
    (prevValues currentValues : List CpuTimeValues) (coresInfo : List CpuCoreInfo)
    (h : prevValues = [] ∨ prevValues.length ≠ currentValues.length) :
    (CpuMonitor.getStats prevValues currentValues coresInfo).1.cores
      = coresInfo.map mkCoreFromInfo := by
  have hcond : ¬(¬prevValues.isEmpty = true ∧ prevValues.length = currentValues.length) := by
    rcases h with h | h
    · subst h; simp
    · exact fun hc => h hc.2
  simp only [CpuMonitor.getStats, hcond, if_false]

lemma getStats_usage_reset
    (prevValues currentValues : List CpuTimeValues) (coresInfo : List CpuCoreInfo)
    (h : prevValues = [] ∨ prevValues.length ≠ currentValues.length) :
    (CpuMonitor.getStats prevValues currentValues coresInfo).1.usage = 0 := by
  have hcond : ¬(¬prevValues.isEmpty = true ∧ prevValues.length = currentValues.length) := by
    rcases h with h | h
    · subst h; simp
    · exact fun hc => h hc.2
  simp only [CpuMonitor.getStats, hcond, if_false]
  apply avgUsage_of_all_zero
  intro c hc
  rcases List.mem_map.mp hc with ⟨ci, _, rfl⟩
  rfl

/-- C2: the Delta-Rate Engine's observe step (`CpuMonitor::get_stats`)
unconditionally replaces the stored previous snapshot with the current one,
including on the very first call; and when there is no stored snapshot or
the core count of the argument differs from the stored one, every reported
per-core usage is `0` and so is the overall usage, while the new topology
still becomes the baseline for the next call. -/
theorem cpuMonitor_observe_replaces_baseline
    (prevValues currentValues : List CpuTimeValues) (coresInfo : List CpuCoreInfo) :
    (CpuMonitor.getStats prevValues currentValues coresInfo).2 = currentValues
    ∧ ((prevValues = [] ∨ prevValues.length ≠ currentValues.length) →
        (∀ c ∈ (CpuMonitor.getStats prevValues currentValues coresInfo).1.cores,
          c.usage = 0)
        ∧ (CpuMonitor.getStats prevValues currentValues coresInfo).1.usage = 0) := by
  constructor
  · rfl
  · intro hreset
    refine ⟨fun c hc => ?_, getStats_usage_reset _ _ _ hreset⟩
    rw [getStats_cores_reset _ _ _ hreset] at hc
    rcases List.mem_map.mp hc with ⟨ci, _, rfl⟩
    rfl

/-- Witness for `cpuMonitor_observe_replaces_baseline` at a concrete first
call (empty stored snapshot). -/
theorem cpuMonitor_observe_replaces_baseline_witness :
    (CpuMonitor.getStats [] [⟨1, 2, 3, 4, 5, 6, 7⟩] [⟨0, 1000, "schedutil"⟩]).2
        = [⟨1, 2, 3, 4, 5, 6, 7⟩]
    ∧ ((∀ c ∈ (CpuMonitor.getStats [] [⟨1, 2, 3, 4, 5, 6, 7⟩]
          [⟨0, 1000, "schedutil"⟩]).1.cores, c.usage = 0)
        ∧ (CpuMonitor.getStats [] [⟨1, 2, 3, 4, 5, 6, 7⟩]
          [⟨0, 1000, "schedutil"⟩]).1.usage = 0) := by
  have h := cpuMonitor_observe_replaces_baseline []
    [⟨1, 2, 3, 4, 5, 6, 7⟩] [⟨0, 1000, "schedutil"⟩]
  exact ⟨h.1, h.2 (Or.inl rfl)⟩

/-- C1 counterexample: with one core whose idle counter decreases while the
busy counters grow (busy 0 → 200, idle 100 → 0), `total_now − total_prev`
is positive (100) yet the reported usage is `200`: `CpuMonitor::get_stats`
applies no clamping to `[0, 100]`, contrary to the claim. -/
theorem cpuMonitor_usage_not_clamped_counterexample :
    ((CpuMonitor.getStats
        [⟨0, 0, 0, 100, 0, 0, 0⟩]
        [⟨200, 0, 0, 0, 0, 0, 0⟩]
        [⟨0, 0, "schedutil"⟩]).1.cores.map CpuCore.usage) = [200]
    ∧ ¬((200 : ℚ) ≤ 100) := by
  constructor
  · simp [CpuMonitor.getStats, applyDeltas, mkCoreFromInfo, CpuTimeValues.total,
      CpuTimeValues.busy]
  · norm_num

/-- C1 (amended): over consecutive observations with the same core count,
the `i`-th core's reported usage equals
`100 * (busy_now − busy_prev) / (total_now − total_prev)` with *saturating*
(floored-at-zero) differences when the total delta is positive, and `0`
otherwise; the value is always non-negative, is `0` whenever
`total_now ≤ total_prev`, and lies within `[0, 100]` whenever every
individual counter component is non-decreasing — but the code never clamps,
so a decreasing component can push it above 100
(`cpuMonitor_usage_not_clamped_counterexample`). -/
theorem cpuMonitor_delta_usage_spec
    (prevValues currentValues : List CpuTimeValues) (coresInfo : List CpuCoreInfo)
    (i : Nat) (p c : CpuTimeValues)
    (hne : prevValues ≠ []) (hlen : prevValues.length = currentValues.length)
    (hp : prevValues.get? i = some p) (hc : currentValues.get? i = some c)
    (hi : i < coresInfo.length) :
    ((CpuMonitor.getStats prevValues currentValues coresInfo).1.cores.map CpuCore.usage).get? i
        = some (specCoreUsage p c)
    ∧ 0 ≤ specCoreUsage p c
    ∧ (c.total ≤ p.total → specCoreUsage p c = 0)
    ∧ (p.user ≤ c.user → p.nice ≤ c.nice → p.system ≤ c.system → p.idle ≤ c.idle →
        p.iowait ≤ c.iowait → p.irq ≤ c.irq → p.softirq ≤ c.softirq →
        specCoreUsage p c ≤ 100) := by
  have hcond : ¬prevValues.isEmpty = true ∧ prevValues.length = currentValues.length :=
    ⟨fun hE => hne (List.isEmpty_iff.mp hE), hlen⟩
  have hcores : (CpuMonitor.getStats prevValues currentValues coresInfo).1.cores
      = applyDeltas (coresInfo.map mkCoreFromInfo) (currentValues.zip prevValues) := by
    simp only [CpuMonitor.getStats]
    rw [if_pos hcond]
  refine ⟨?_, ?_, ?_, ?_⟩
  · have hci : coresInfo.get? i = some (coresInfo.get ⟨i, hi⟩) := List.get?_eq_get hi
    have hc0 : (coresInfo.map mkCoreFromInfo).get? i
        = some (mkCoreFromInfo (coresInfo.get ⟨i, hi⟩)) := by
      rw [List.get?_map, hci]
      rfl
    have hsome : (applyDeltas (coresInfo.map mkCoreFromInfo) (currentValues.zip prevValues)).get? i
        = some (if 0 < c.total - p.total then
            { mkCoreFromInfo (coresInfo.get ⟨i, hi⟩) with
                usage := ((c.busy - p.busy : Nat) : ℚ) / ((c.total - p.total : Nat) : ℚ) * 100 }
          else mkCoreFromInfo (coresInfo.get ⟨i, hi⟩)) := by
      rw [applyDeltas_get?, hc0, zip_get?_eq currentValues prevValues i c p hc hp]
    rw [hcores, List.get?_map, hsome]
    dsimp only [Option.map]
    unfold specCoreUsage
    by_cases hdt : 0 < c.total - p.total
    · rw [if_pos hdt, if_pos hdt]
      dsimp only
      rw [Option.some_inj]
      ring
    · rw [if_neg hdt, if_neg hdt]
      rfl
  · unfold specCoreUsage
    split
    · positivity
    · exact le_refl 0
  · intro h
    unfold specCoreUsage
    rw [if_neg]
    rw [Nat.sub_eq_zero_of_le h]
    exact lt_irrefl 0
  · intro h1 h2 h3 h4 h5 h6 h7
    unfold specCoreUsage
    by_cases hdt : 0 < c.total - p.total
    · rw [if_pos hdt]
      have hdb : c.busy - p.busy ≤ c.total - p.total := by
        unfold CpuTimeValues.total CpuTimeValues.busy
        omega
      have hdtQ : (0 : ℚ) < ((c.total - p.total : Nat) : ℚ) := by exact_mod_cast hdt
      rw [div_le_iff₀ hdtQ]
      have hdbQ : ((c.busy - p.busy : Nat) : ℚ) ≤ ((c.total - p.total : Nat) : ℚ) := by
        exact_mod_cast hdb
      nlinarith
    · rw [if_neg hdt]
      norm_num

/-- Concrete per-core time values used by the C1 witness (previous tick). -/
def sampPrev : CpuTimeValues := ⟨0, 0, 0, 100, 0, 0, 0⟩

/-- Concrete per-core time values used by the C1 witness (current tick). -/
def sampCurr : CpuTimeValues := ⟨10, 0, 0, 190, 0, 0, 0⟩

/-- Witness for `cpuMonitor_delta_usage_spec` at one concrete pair of
snapshots (busy 0 → 10, total 100 → 200, usage `10`). -/
theorem cpuMonitor_delta_usage_spec_witness :
    ((CpuMonitor.getStats [sampPrev] [sampCurr]
        [⟨0, 0, "schedutil"⟩]).1.cores.map CpuCore.usage).get? 0
        = some (specCoreUsage sampPrev sampCurr)
    ∧ 0 ≤ specCoreUsage sampPrev sampCurr
    ∧ (sampCurr.total ≤ sampPrev.total → specCoreUsage sampPrev sampCurr = 0)
    ∧ (sampPrev.user ≤ sampCurr.user → sampPrev.nice ≤ sampCurr.nice →
        sampPrev.system ≤ sampCurr.system → sampPrev.idle ≤ sampCurr.idle →
        sampPrev.iowait ≤ sampCurr.iowait → sampPrev.irq ≤ sampCurr.irq →
        sampPrev.softirq ≤ sampCurr.softirq →
        specCoreUsage sampPrev sampCurr ≤ 100) :=
  cpuMonitor_delta_usage_spec [sampPrev] [sampCurr] [⟨0, 0, "schedutil"⟩] 0
    sampPrev sampCurr (List.cons_ne_nil _ _) rfl rfl rfl (by decide)

/-- C10: for both the stateless `CpuStats::get` and the stateful
`CpuMonitor::get_stats`, the overall usage equals the arithmetic mean of
the per-core usages when the core list is non-empty, and `0` when it is
empty (float arithmetic modelled exactly over `ℚ`). -/
theorem cpu_overall_usage_is_mean
    (prevValues currentValues : List CpuTimeValues) (coresInfo : List CpuCoreInfo)
    (coresRead : Option (List CpuCore)) :
    (((CpuMonitor.getStats prevValues currentValues coresInfo).1.cores = [] →
        (CpuMonitor.getStats prevValues currentValues coresInfo).1.usage = 0)
      ∧ ((CpuMonitor.getStats prevValues currentValues coresInfo).1.cores ≠ [] →
        (CpuMonitor.getStats prevValues currentValues coresInfo).1.usage =
          ((CpuMonitor.getStats prevValues currentValues coresInfo).1.cores.map CpuCore.usage).sum
            / ((CpuMonitor.getStats prevValues currentValues coresInfo).1.cores.length : ℚ)))
    ∧ (((CpuStats.get coresRead).cores = [] → (CpuStats.get coresRead).usage = 0)
      ∧ ((CpuStats.get coresRead).cores ≠ [] →
        (CpuStats.get coresRead).usage =
          ((CpuStats.get coresRead).cores.map CpuCore.usage).sum
            / ((CpuStats.get coresRead).cores.length : ℚ))) := by
  have h1 : (CpuMonitor.getStats prevValues currentValues coresInfo).1.usage
      = avgUsage ((CpuMonitor.getStats prevValues currentValues coresInfo).1.cores) := rfl
  have h2 : (CpuStats.get coresRead).usage = avgUsage ((CpuStats.get coresRead).cores) := rfl
  refine ⟨⟨fun hnil => ?_, fun hne => ?_⟩, ⟨fun hnil => ?_, fun hne => ?_⟩⟩
  · rw [h1, hnil, avgUsage_nil]
  · rw [h1, avgUsage_of_ne_nil _ hne]
  · rw [h2, hnil, avgUsage_nil]
  · rw [h2, avgUsage_of_ne_nil _ hne]

/-- Witness for `cpu_overall_usage_is_mean`: the non-empty case at one core
and the empty case when `read_cpu_cores` failed. -/
theorem cpu_overall_usage_is_mean_witness :
    (CpuMonitor.getStats [] [] [⟨0, 1000, "schedutil"⟩]).1.usage =
      ((CpuMonitor.getStats [] [] [⟨0, 1000, "schedutil"⟩]).1.cores.map CpuCore.usage).sum
        / ((CpuMonitor.getStats [] [] [⟨0, 1000, "schedutil"⟩]).1.cores.length : ℚ)
    ∧ (CpuStats.get none).usage = 0 :=
  ⟨(cpu_overall_usage_is_mean [] [] [⟨0, 1000, "schedutil"⟩] none).1.2 (by decide),
    (cpu_overall_usage_is_mean [] [] [⟨0, 1000, "schedutil"⟩] none).2.1 rfl⟩

/-- Does `needle` occur as a contiguous substring? (Rust `str::contains`.) -/
def listHasInfix : List Char → List Char → Bool
  | [], needle => needle.isEmpty
  | h :: t, needle => needle.isPrefixOf (h :: t) || listHasInfix t needle

/-- Rust `str::contains` on strings. -/
def strContainsStr (hay needle : String) : Bool :=
  listHasInfix hay.toList needle.toList

/-- Rust `str::to_lowercase` (per-character; the inputs here are ASCII). -/
def rustToLowercase (s : String) : String :=
  String.mk (s.toList.map Char.toLower)

/-- The slice of the filesystem `find_gpu_devfreq` (`src/modules/gpu.rs`)
looks at: whether `/sys/class/devfreq` exists, and its entry names in
directory-iteration order. A child path `…/name` exists iff `name` is
among the entries. -/
structure DevfreqFs where
  baseExists : Bool
  entries : List String

/-- The known GPU devfreq candidate names, in priority order. -/
def gpuDevfreqCandidates : List String := ["gpu-gpc-0", "gpu-nvd-0", "gpu"]

/-- The candidate loop of `find_gpu_devfreq`: first candidate that exists. -/
def firstExistingCandidate (entries : List String) : List String → Option String
  | [] => none
  | c :: cs => if entries.contains c then some c else firstExistingCandidate entries cs

/-- The fallback `read_dir` scan of `find_gpu_devfreq`: first entry whose
lowercased name contains "gpu" or "gv11b". -/
def fallbackScan : List String → Option String
  | [] => none
  | e :: es =>
      if strContainsStr (rustToLowercase e) "gpu" || strContainsStr (rustToLowercase e) "gv11b" then
        some ("/sys/class/devfreq/" ++ e)
      else fallbackScan es

/-- `find_gpu_devfreq` (`src/modules/gpu.rs`). -/
def find_gpu_devfreq (fs : DevfreqFs) : Option String :=
  if !fs.baseExists then none
  else
    match firstExistingCandidate fs.entries gpuDevfreqCandidates with
    | some c => some ("/sys/class/devfreq/" ++ c)
    | none => fallbackScan fs.entries

lemma fallbackScan_eq_none (es : List String)
    (h : ∀ e ∈ es, (strContainsStr (rustToLowercase e) "gpu"
        || strContainsStr (rustToLowercase e) "gv11b") = false) :
    fallbackScan es = none := by
  induction es with
  | nil => rfl
  | cons e es ih =>
    have he := h e (List.mem_cons_self e es)
    simp only [fallbackScan, he, Bool.false_eq_true, if_false]
    exact ih fun x hx => h x (List.mem_cons_of_mem _ hx)

/-- C3 counterexample: with `/sys/class/devfreq` present and containing only
the entry `gv11b` — so that *no* candidate from the priority list exists —
`find_gpu_devfreq` still returns `Some` (via its fallback directory scan)
instead of the claimed `None`. -/
theorem find_gpu_devfreq_fallback_counterexample :
    (∀ c ∈ gpuDevfreqCandidates, c ∉ (["gv11b"] : List String))
    ∧ find_gpu_devfreq ⟨true, ["gv11b"]⟩ = some "/sys/class/devfreq/gv11b" := by
  constructor
  · decide
  · decide

/-- C3 (amended): `find_gpu_devfreq` returns the first of the candidates
`["gpu-gpc-0", "gpu-nvd-0", "gpu"]` that exists (in list order); when none
exists it falls back to scanning the directory for an entry whose
lowercased name contains "gpu" or "gv11b", and returns `none` (never
raising) only when that scan also finds nothing, or when the devfreq
directory itself is absent. In particular, if only the second and third
candidates exist, the second is returned. -/
theorem find_gpu_devfreq_priority (fs : DevfreqFs) :
    (fs.baseExists = false → find_gpu_devfreq fs = none)
    ∧ (fs.baseExists = true → "gpu-gpc-0" ∈ fs.entries →
        find_gpu_devfreq fs = some "/sys/class/devfreq/gpu-gpc-0")
    ∧ (fs.baseExists = true → "gpu-gpc-0" ∉ fs.entries → "gpu-nvd-0" ∈ fs.entries →
        find_gpu_devfreq fs = some "/sys/class/devfreq/gpu-nvd-0")
    ∧ (fs.baseExists = true → "gpu-gpc-0" ∉ fs.entries → "gpu-nvd-0" ∉ fs.entries →
        "gpu" ∈ fs.entries →
        find_gpu_devfreq fs = some "/sys/class/devfreq/gpu")
    ∧ ((∀ c ∈ gpuDevfreqCandidates, c ∉ fs.entries) →
        (∀ e ∈ fs.entries, (strContainsStr (rustToLowercase e) "gpu"
            || strContainsStr (rustToLowercase e) "gv11b") = false) →
        find_gpu_devfreq fs = none) := by
  refine ⟨fun hb => ?_, fun hb h1 => ?_, fun hb h1 h2 => ?_, fun hb h1 h2 h3 => ?_,
    fun hcands hfall => ?_⟩
  · simp [find_gpu_devfreq, hb]
  · simp [find_gpu_devfreq, firstExistingCandidate, gpuDevfreqCandidates, hb, h1]
  · simp [find_gpu_devfreq, firstExistingCandidate, gpuDevfreqCandidates, hb, h1, h2]
  · simp [find_gpu_devfreq, firstExistingCandidate, gpuDevfreqCandidates, hb, h1, h2, h3]
  · have h1 := hcands "gpu-gpc-0" (by simp [gpuDevfreqCandidates])
    have h2 := hcands "gpu-nvd-0" (by simp [gpuDevfreqCandidates])
    have h3 := hcands "gpu" (by simp [gpuDevfreqCandidates])
    cases hb : fs.baseExists with
    | false => simp [find_gpu_devfreq, hb]
    | true =>
      simp [find_gpu_devfreq, firstExistingCandidate, gpuDevfreqCandidates, hb, h1, h2, h3,
        fallbackScan_eq_none fs.entries hfall]

/-- Witness for `find_gpu_devfreq_priority`: candidates `[A, B, C]` with only
`B` and `C` present yield `B`. -/
theorem find_gpu_devfreq_priority_witness :
    find_gpu_devfreq ⟨true, ["gpu-nvd-0", "gpu"]⟩ = some "/sys/class/devfreq/gpu-nvd-0" :=
  (find_gpu_devfreq_priority ⟨true, ["gpu-nvd-0", "gpu"]⟩).2.2.1 rfl (by decide) (by decide)

/-- The slice of the filesystem `FanStats::set_speed` (`src/modules/fan.rs`)
touches: whether `/sys/class/thermal` exists, the indices of the cooling
devices found under it, and which paths reject writes (permissions). -/
structure FanFs where
  thermalExists : Bool
  coolingDevices : List Nat
  failingPaths : List String

/-- Path of a cooling-device control file. -/
def fanWritePath (i : Nat) (file : String) : String :=
  "/sys/class/thermal/cooling_device" ++ toString i ++ "/" ++ file

/-- `(speed as u32 * 255 / 100).min(255)` from `set_speed`. -/
def pwmFromSpeed (speed : Nat) : Nat := min (speed * 255 / 100) 255

/-- The write loop of `set_speed`; the returned list records every write
attempted, in order, and the loop stops at the first failing write
(Rust `?`). -/
def fanWriteLoop (fs : FanFs) (speed : Nat) :
    List Nat → List (String × String) → Except String Unit × List (String × String)
  | [], log => (Except.ok (), log)
  | i :: rest, log =>
      let statePath := fanWritePath i "cur_state"
      let log1 := log ++ [(statePath, "disabled")]
      if fs.failingPaths.contains statePath then (Except.error "write failed", log1)
      else
        let pwmPath := fanWritePath i "cur_pwm"
        let log2 := log1 ++ [(pwmPath, toString (pwmFromSpeed speed))]
        if fs.failingPaths.contains pwmPath then (Except.error "write failed", log2)
        else fanWriteLoop fs speed rest log2

/-- `FanStats::set_speed` (`speed` is a `u8` in Rust, so only the upper bound
is checked); returns the outcome paired with the writes attempted. -/
def FanStats.setSpeed (fs : FanFs) (speed : Nat) :
    Except String Unit × List (String × String) :=
  if speed > 100 then (Except.error "Speed must be 0-100", [])
  else if !fs.thermalExists then (Except.error "Thermal system not found", [])
  else fanWriteLoop fs speed fs.coolingDevices []

/-- `NVPModelStats::set_model` (`model_id` is a `u8`): validation, then one
invocation of the privileged `nvpmodel` helper; the returned list records
the helper invocations (with their argument). -/
def NVPModelStats.setModel (modelId : Nat) (helperSucceeds : Bool) :
    Except String Unit × List Nat :=
  if modelId > 15 then (Except.error "Model ID must be 0-15", [])
  else if helperSucceeds then (Except.ok (), [modelId])
  else (Except.error "nvpmodel command failed", [modelId])

lemma fanWriteLoop_log_grows (fs : FanFs) (speed : Nat) (devices : List Nat)
    (log : List (String × String)) :
    ∃ suffix, (fanWriteLoop fs speed devices log).2 = log ++ suffix := by
  induction devices generalizing log with
  | nil => exact ⟨[], by simp [fanWriteLoop]⟩
  | cons i rest ih =>
    by_cases h1 : fanWritePath i "cur_state" ∈ fs.failingPaths
    · exact ⟨[(fanWritePath i "cur_state", "disabled")], by simp [fanWriteLoop, h1]⟩
    · by_cases h2 : fanWritePath i "cur_pwm" ∈ fs.failingPaths
      · refine ⟨[(fanWritePath i "cur_state", "disabled"),
          (fanWritePath i "cur_pwm", toString (pwmFromSpeed speed))], ?_⟩
        simp [fanWriteLoop, h1, h2]
      · obtain ⟨suffix, hs⟩ := ih (log ++ [(fanWritePath i "cur_state", "disabled"),
          (fanWritePath i "cur_pwm", toString (pwmFromSpeed speed))])
        refine ⟨[(fanWritePath i "cur_state", "disabled"),
          (fanWritePath i "cur_pwm", toString (pwmFromSpeed speed))] ++ suffix, ?_⟩
        simp only [fanWriteLoop]
        rw [if_neg (by simpa using h1), if_neg (by simpa using h2)]
        simpa [List.append_assoc] using hs

lemma fanWriteLoop_cons_ne_nil (fs : FanFs) (speed i : Nat) (rest : List Nat) :
    (fanWriteLoop fs speed (i :: rest) []).2 ≠ [] := by
  by_cases h1 : fanWritePath i "cur_state" ∈ fs.failingPaths
  · simp [fanWriteLoop, h1]
  · by_cases h2 : fanWritePath i "cur_pwm" ∈ fs.failingPaths
    · simp [fanWriteLoop, h1, h2]
    · obtain ⟨suffix, hs⟩ := fanWriteLoop_log_grows fs speed rest
        ([(fanWritePath i "cur_state", "disabled"),
          (fanWritePath i "cur_pwm", toString (pwmFromSpeed speed))])
      simp only [fanWriteLoop]
      rw [if_neg (by simpa using h1), if_neg (by simpa using h2)]
      simp [hs]

/-- C4: an out-of-range cooling duty (`> 100`) or performance-profile id
(`> 15`) is rejected with a validation error before any filesystem write or
helper invocation is attempted (the attempt log is empty), while the
in-range boundary values (duty 0 and 100, profile 0 and 15) pass validation
and proceed to the write / helper invocation. The arguments are `u8` in
Rust, so values below 0 are unrepresentable. -/
theorem control_range_validation :
    (∀ (fs : FanFs) (speed : Nat), 100 < speed →
        FanStats.setSpeed fs speed = (Except.error "Speed must be 0-100", []))
    ∧ (∀ (modelId : Nat) (b : Bool), 15 < modelId →
        NVPModelStats.setModel modelId b = (Except.error "Model ID must be 0-15", []))
    ∧ (∀ fs : FanFs, fs.thermalExists = true → fs.coolingDevices ≠ [] →
        (FanStats.setSpeed fs 0).2 ≠ [] ∧ (FanStats.setSpeed fs 100).2 ≠ [])
    ∧ (∀ b : Bool, (NVPModelStats.setModel 0 b).2 = [0]
        ∧ (NVPModelStats.setModel 15 b).2 = [15]) := by
  refine ⟨fun fs speed h => ?_, fun modelId b h => ?_, fun fs hT hdev => ?_, fun b => ?_⟩
  · simp [FanStats.setSpeed, h]
  · simp [NVPModelStats.setModel, h]
  · rcases hcd : fs.coolingDevices with _ | ⟨i, rest⟩
    · exact absurd hcd hdev
    · constructor
      · simp only [FanStats.setSpeed]
        rw [if_neg (by norm_num), if_neg (by simp [hT]), hcd]
        exact fanWriteLoop_cons_ne_nil fs 0 i rest
      · simp only [FanStats.setSpeed]
        rw [if_neg (by norm_num), if_neg (by simp [hT]), hcd]
        exact fanWriteLoop_cons_ne_nil fs 100 i rest
  · cases b <;> simp [NVPModelStats.setModel]

/-- Witness for `control_range_validation` at concrete inputs: duty 150 and
profile 20 rejected with nothing attempted; duty 0/100 and profile 0/15
reach the write/helper stage. -/
theorem control_range_validation_witness :
    FanStats.setSpeed ⟨true, [0], []⟩ 150 = (Except.error "Speed must be 0-100", [])
    ∧ NVPModelStats.setModel 20 true = (Except.error "Model ID must be 0-15", [])
    ∧ ((FanStats.setSpeed ⟨true, [0], []⟩ 0).2 ≠ []
        ∧ (FanStats.setSpeed ⟨true, [0], []⟩ 100).2 ≠ [])
    ∧ ((NVPModelStats.setModel 0 true).2 = [0]
        ∧ (NVPModelStats.setModel 15 true).2 = [15]) :=
  ⟨control_range_validation.1 ⟨true, [0], []⟩ 150 (by norm_num),
    control_range_validation.2.1 20 true (by norm_num),
    control_range_validation.2.2.1 ⟨true, [0], []⟩ rfl (by simp),
    control_range_validation.2.2.2 true⟩

/-! ### String helpers

The Rust code uses byte-indexed `str` operations on ASCII pseudo-file
contents; they are modelled here by structural recursion over `List Char`
(so that everything reduces in the kernel), with `String` wrappers. -/

/-- ASCII whitespace (the inputs are ASCII, where Rust `char::is_whitespace`
coincides with this set). -/
def isRustWhitespace (c : Char) : Bool :=
  c = ' ' || c = '\t' || c = '\n' || c = '\r'

/-- Rust `str::trim`. -/
def trimStr (s : String) : String :=
  String.mk (((s.toList.dropWhile isRustWhitespace).reverse.dropWhile isRustWhitespace).reverse)

/-- Rust `str::strip_prefix` on character lists. -/
def stripPrefixList : List Char → List Char → Option (List Char)
  | [], l => some l
  | _ :: _, [] => none
  | p :: ps, c :: cs => if p = c then stripPrefixList ps cs else none

/-- Rust `str::split_once(sep)`. -/
def splitOnceChar (sep : Char) : List Char → Option (List Char × List Char)
  | [] => none
  | c :: rest =>
      if c = sep then some ([], rest)
      else match splitOnceChar sep rest with
        | some (pre, post) => some (c :: pre, post)
        | none => none

/-- `split_once` on strings. -/
def splitOnceStr (s : String) (sep : Char) : Option (String × String) :=
  match splitOnceChar sep s.toList with
  | some (pre, post) => some (String.mk pre, String.mk post)
  | none => none

/-- Rust `str::split(sep)`: splits at every separator, keeping empty pieces
(`""` yields `[""]`). -/
def splitAllChar (sep : Char) : List Char → List Char → List (List Char)
  | [], acc => [acc.reverse]
  | c :: rest, acc =>
      if c = sep then acc.reverse :: splitAllChar sep rest []
      else splitAllChar sep rest (c :: acc)

/-- `str::split` on strings. -/
def splitAllStr (s : String) (sep : Char) : List String :=
  (splitAllChar sep s.toList []).map String.mk

/-- Rust `str::lines`: split on `'\n'`, drop one trailing empty piece (from a
trailing newline), strip a trailing `'\r'` from each line. -/
def rustLines (s : String) : List String :=
  let pieces := splitAllChar '\n' s.toList []
  let pieces := if pieces.getLast? = some [] ∧ pieces.length > 1 then pieces.dropLast else pieces
  let pieces := if s.toList = [] then [] else pieces
  pieces.map fun l => String.mk (match l.getLast? with
    | some '\r' => l.dropLast
    | _ => l)

/-- Rust `str::trim_end_matches(suffix)`: repeatedly strip the suffix. The
fuel argument (instantiated with the list length) keeps the recursion
structural. -/
def trimEndMatchesAux (suffix : List Char) : Nat → List Char → List Char
  | 0, l => l
  | fuel + 1, l =>
      if suffix.isEmpty then l
      else if suffix.isSuffixOf l then
        trimEndMatchesAux suffix fuel (l.take (l.length - suffix.length))
      else l

/-- `trim_end_matches` on strings. -/
def trimEndMatchesStr (s : String) (suffix : String) : String :=
  String.mk (trimEndMatchesAux suffix.toList s.toList.length s.toList)

/-- Decimal digit accumulation; fails on any non-digit character. -/
def parseDigitsAux : List Char → Nat → Option Nat
  | [], acc => some acc
  | c :: rest, acc =>
      if c.isDigit then parseDigitsAux rest (acc * 10 + (c.toNat - 48)) else none

/-- Rust `u64::from_str` (also used for `u32`/`usize` with their bounds):
optional leading `'+'`, at least one digit, value within range. -/
def rustParseUnsigned (bound : Nat) (s : String) : Option Nat :=
  let l := match s.toList with
    | '+' :: rest => rest
    | l => l
  match l with
  | [] => none
  | _ => match parseDigitsAux l 0 with
    | some v => if v < bound then some v else none
    | none => none

/-- Rust `u64::from_str`. -/
def rustParseU64 (s : String) : Option Nat := rustParseUnsigned (2 ^ 64) s

/-- Rust `i32::from_str`: optional sign, digits, within `i32` range. -/
def rustParseI32 (s : String) : Option Int :=
  match s.toList with
  | '-' :: rest =>
      (match rest with
        | [] => none
        | _ => match parseDigitsAux rest 0 with
          | some v => if v ≤ 2 ^ 31 then some (-(v : Int)) else none
          | none => none)
  | _ =>
      (match rustParseUnsigned (2 ^ 31) s with
        | some v => some (v : Int)
        | none => none)

/-! ### Filesystem model and Domain Collectors (memory, temperature) -/

/-- Abstract filesystem: `read` is `fs::read_to_string` (with `none` for any
missing, unreadable or non-UTF-8 file), `dirExists` is `Path::exists` for
directories, `dirEntries` is `fs::read_dir` in iteration order. -/
structure SysFs where
  read : String → Option String
  dirExists : String → Bool
  dirEntries : String → List String

/-- The filesystem with no readable files and no directories. -/
def emptySysFs : SysFs :=
  { read := fun _ => none, dirExists := fun _ => false, dirEntries := fun _ => [] }

/-- Struct `MemoryStats` (`src/modules/memory.rs`); all fields are `u64`. -/
structure MemoryStats where
  ram_used : Nat
  ram_total : Nat
  ram_cached : Nat
  swap_used : Nat
  swap_total : Nat
  swap_cached : Nat
  iram_used : Nat
  iram_total : Nat
  iram_lfb : Nat
deriving DecidableEq, Repr

/-- Rust `MemoryStats::default()`. -/
def MemoryStats.zero : MemoryStats := ⟨0, 0, 0, 0, 0, 0, 0, 0, 0⟩

/-- The key→value map built by `parse_meminfo`: each parsed `key: value kB`
line inserts `value * 1024` (u64 multiplication) under the trimmed key;
later lines overwrite earlier ones (HashMap insert), which the head-first
assoc list models. -/
def meminfoEntries (content : String) : List (String × Nat) :=
  (rustLines content).foldl
    (fun acc line =>
      match splitOnceStr line ':' with
      | none => acc
      | some (key, value) =>
          let valueStr := trimStr (trimEndMatchesStr (trimStr value) " kB")
          match rustParseU64 valueStr with
          | some v => (trimStr key, v * 1024 % 2 ^ 64) :: acc
          | none => acc)
    []

/-- `meminfo.get(key).unwrap_or(&0)`. -/
def meminfoGet (m : List (String × Nat)) (key : String) : Nat :=
  match m.find? (fun p => p.1 == key) with
  | some p => p.2
  | none => 0

/-- `parse_meminfo` (`src/modules/memory.rs`); u64 sums are taken mod `2^64`
and `saturating_sub` is `Nat` subtraction. -/
def parse_meminfo (content : String) : MemoryStats :=
  let m := meminfoEntries content
  let ram_total := meminfoGet m "MemTotal"
  let mem_free := meminfoGet m "MemFree"
  let mem_buffers := meminfoGet m "Buffers"
  let mem_cached := meminfoGet m "Cached"
  let ram_used := ram_total - (mem_free + mem_buffers + mem_cached) % 2 ^ 64
  let swap_total := meminfoGet m "SwapTotal"
  let swap_free := meminfoGet m "SwapFree"
  let swap_used := swap_total - swap_free
  let swap_cached := meminfoGet m "SwapCached"
  let iram_total := meminfoGet m "IramTotal"
  let iram_lfb := meminfoGet m "IramLfb"
  let iram_free := meminfoGet m "IramFree"
  let iram_used := iram_total - (iram_free + iram_lfb) % 2 ^ 64
  { ram_used := ram_used, ram_total := ram_total, ram_cached := mem_cached,
    swap_used := swap_used, swap_total := swap_total, swap_cached := swap_cached,
    iram_used := iram_used, iram_total := iram_total, iram_lfb := iram_lfb }

/-- `MemoryStats::get` (`src/modules/memory.rs`). -/
def MemoryStats.get (fs : SysFs) : MemoryStats :=
  match fs.read "/proc/meminfo" with
  | some content => parse_meminfo content
  | none => MemoryStats.zero

/-- Struct `ThermalZone` (`src/modules/temperature.rs`); `f32` temperatures
modelled exactly over `ℚ`. -/
structure ThermalZone where
  index : Nat
  name : String
  current_temp : ℚ
  max_temp : ℚ
  critical_temp : ℚ
deriving DecidableEq, Repr

/-- Struct `TemperatureStats` (`src/modules/temperature.rs`). -/
structure TemperatureStats where
  cpu : ℚ
  gpu : ℚ
  board : ℚ
  pmic : ℚ
  thermal_zones : List ThermalZone
deriving DecidableEq, Repr

/-- Rust `TemperatureStats::default()`. -/
def TemperatureStats.zero : TemperatureStats := ⟨0, 0, 0, 0, []⟩

/-- A millidegree file read: `read_to_string(..).ok().and_then(parse::<i32>)
.map(|m| m as f32 / 1000.0).unwrap_or(0.0)`. -/
def readMilli (fs : SysFs) (path : String) : ℚ :=
  match fs.read path with
  | some s =>
      (match rustParseI32 (trimStr s) with
        | some v => (v : ℚ) / 1000
        | none => 0)
  | none => 0

/-- `read_thermal_zones` (`src/modules/temperature.rs`): keep entries named
`thermal_zone*`, parse the index, read type/temp/trip/crit per zone. -/
def read_thermal_zones (fs : SysFs) (basePath : String) : List ThermalZone :=
  ((fs.dirEntries basePath).filter
      (fun name => ("thermal_zone".toList).isPrefixOf name.toList)).map
    fun zoneName =>
      let index :=
        match stripPrefixList "thermal_zone".toList zoneName.toList with
        | some rest => (rustParseU64 (String.mk rest)).getD 0
        | none => 0
      let zonePath := basePath ++ "/" ++ zoneName
      let zoneType :=
        match fs.read (zonePath ++ "/type") with
        | some s => trimStr s
        | none => "unknown"
      { index := index, name := zoneType,
        current_temp := readMilli fs (zonePath ++ "/temp"),
        max_temp := readMilli fs (zonePath ++ "/trip_point_0_temp"),
        critical_temp := readMilli fs (zonePath ++ "/crit_temp") }

/-- The zone-classification loop of `TemperatureStats::get`: case-insensitive
substring match in a fixed priority order (cpu, gpu, pmic, board); first
matching branch per zone, later zones overwrite earlier ones. -/
def classifyZones (zones : List ThermalZone) : TemperatureStats :=
  zones.foldl
    (fun stats zone =>
      let nameLower := rustToLowercase zone.name
      if strContainsStr nameLower "cpu" || zone.name == "CPU-therm"
          || zone.name == "cpu-thermal" then
        { stats with cpu := zone.current_temp }
      else if strContainsStr nameLower "gpu" || zone.name == "GPU-therm"
          || zone.name == "gpu-thermal" then
        { stats with gpu := zone.current_temp }
      else if strContainsStr nameLower "pmic" then
        { stats with pmic := zone.current_temp }
      else if strContainsStr nameLower "board" || strContainsStr nameLower "tboard"
          || strContainsStr zone.name "Tboard" then
        { stats with board := zone.current_temp }
      else stats)
    { cpu := 0, gpu := 0, board := 0, pmic := 0, thermal_zones := zones }

/-- `TemperatureStats::get` (`src/modules/temperature.rs`). -/
def TemperatureStats.get (fs : SysFs) : TemperatureStats :=
  if !fs.dirExists "/sys/class/thermal" then TemperatureStats.zero
  else classifyZones (read_thermal_zones fs "/sys/class/thermal")

/-- C5: against a filesystem containing none of their expected files, the
memory and temperature collectors return (do not raise — they are total
functions of the filesystem) a fully-populated reading with every numeric
field `0` and an empty zone list; no per-field read failure escapes the
collector. -/
theorem collectors_absorb_missing_files (fs : SysFs)
    (hread : ∀ p, fs.read p = none) (hdir : ∀ p, fs.dirExists p = false) :
    MemoryStats.get fs = MemoryStats.zero
    ∧ TemperatureStats.get fs = TemperatureStats.zero := by
  constructor
  · simp [MemoryStats.get, hread]
  · simp [TemperatureStats.get, hdir]

/-- Witness for `collectors_absorb_missing_files` at the empty filesystem. -/
theorem collectors_absorb_missing_files_witness :
    MemoryStats.get emptySysFs = MemoryStats.zero
    ∧ TemperatureStats.get emptySysFs = TemperatureStats.zero :=
  collectors_absorb_missing_files emptySysFs (fun _ => rfl) (fun _ => rfl)

/-! ### Screen State Machine and Interactive Loop (`tui/state.rs`, `tui/app.rs`) -/

/-- Enum `ScreenState`: the fixed closed set of 8 views. The spec's
"Overview" is the `All` screen. -/
inductive ScreenState where
  | all
  | cpu
  | gpu
  | memory
  | power
  | temperature
  | control
  | info
deriving DecidableEq, Repr

/-- `ScreenState::COUNT`. -/
def ScreenState.count : Nat := 8

/-- `ScreenState::from_index` (0-based). -/
def ScreenState.fromIndex : Nat → Option ScreenState
  | 0 => some ScreenState.all
  | 1 => some ScreenState.cpu
  | 2 => some ScreenState.gpu
  | 3 => some ScreenState.memory
  | 4 => some ScreenState.power
  | 5 => some ScreenState.temperature
  | 6 => some ScreenState.control
  | 7 => some ScreenState.info
  | _ => none

/-- `ScreenState::index` (1-based, as in the source). -/
def ScreenState.index : ScreenState → Nat
  | ScreenState.all => 1
  | ScreenState.cpu => 2
  | ScreenState.gpu => 3
  | ScreenState.memory => 4
  | ScreenState.power => 5
  | ScreenState.temperature => 6
  | ScreenState.control => 7
  | ScreenState.info => 8

/-- The key codes `TuiApp::handle_key` distinguishes; `other` covers every
other crossterm key code. -/
inductive KeyCode where
  | char (c : Char)
  | esc
  | other
deriving DecidableEq, Repr

/-- Crossterm key-event kind: `handle_key` ignores everything but `Press`. -/
inductive KeyEventKind where
  | press
  | notPress
deriving DecidableEq, Repr

/-- A key event as seen by `handle_key`. -/
structure KeyEvent where
  code : KeyCode
  kind : KeyEventKind
deriving DecidableEq, Repr

/-- The fields of `TuiApp` that navigation touches. -/
structure NavState where
  currentScreen : ScreenState
  screenChanged : Bool
  shouldExit : Bool
deriving DecidableEq, Repr

/-- `TuiApp::handle_key`: `q`/`Q`/`Esc` request exit, digits `1`–`8` select a
screen and mark it changed, everything else is a no-op. -/
def TuiApp.handleKey (st : NavState) (key : KeyEvent) : NavState :=
  if key.kind ≠ KeyEventKind.press then st
  else
    match key.code with
    | KeyCode.esc => { st with shouldExit := true }
    | KeyCode.char c =>
        if c = 'q' ∨ c = 'Q' then { st with shouldExit := true }
        else if c = '1' then { st with currentScreen := ScreenState.all, screenChanged := true }
        else if c = '2' then { st with currentScreen := ScreenState.cpu, screenChanged := true }
        else if c = '3' then { st with currentScreen := ScreenState.gpu, screenChanged := true }
        else if c = '4' then { st with currentScreen := ScreenState.memory, screenChanged := true }
        else if c = '5' then { st with currentScreen := ScreenState.power, screenChanged := true }
        else if c = '6' then { st with currentScreen := ScreenState.temperature, screenChanged := true }
        else if c = '7' then { st with currentScreen := ScreenState.control, screenChanged := true }
        else if c = '8' then { st with currentScreen := ScreenState.info, screenChanged := true }
        else st
    | KeyCode.other => st

/-- C6: from the Overview (`All`) screen, the screen-5 navigation key
transitions the current state to `Power`; `ScreenState::from_index` returns
`None` for every index outside the 8-screen set; and unrecognized
navigation input (a character outside the vocabulary, or any other key
code) leaves the state exactly as it was. -/
theorem screen_navigation (st : NavState) (c : Char) (n : Nat) :
    (TuiApp.handleKey ⟨ScreenState.all, false, false⟩
        ⟨KeyCode.char '5', KeyEventKind.press⟩).currentScreen = ScreenState.power
    ∧ (8 ≤ n → ScreenState.fromIndex n = none)
    ∧ (c ∉ (['q', 'Q', '1', '2', '3', '4', '5', '6', '7', '8'] : List Char) →
        TuiApp.handleKey st ⟨KeyCode.char c, KeyEventKind.press⟩ = st)
    ∧ TuiApp.handleKey st ⟨KeyCode.other, KeyEventKind.press⟩ = st := by
  refine ⟨rfl, fun hn => ?_, fun hc => ?_, rfl⟩
  · obtain ⟨m, rfl⟩ : ∃ m, n = m + 8 := ⟨n - 8, by omega⟩
    rfl
  · simp only [List.mem_cons, List.not_mem_nil, or_false, not_or] at hc
    obtain ⟨h1, h2, h3, h4, h5, h6, h7, h8, h9, h10⟩ := hc
    simp [TuiApp.handleKey, h1, h2, h3, h4, h5, h6, h7, h8, h9, h10]

/-- Witness for `screen_navigation` at a concrete state, the unrecognized
character `x`, and the out-of-range index 9. -/
theorem screen_navigation_witness :
    (TuiApp.handleKey ⟨ScreenState.all, false, false⟩
        ⟨KeyCode.char '5', KeyEventKind.press⟩).currentScreen = ScreenState.power
    ∧ ScreenState.fromIndex 9 = none
    ∧ TuiApp.handleKey ⟨ScreenState.cpu, false, false⟩
        ⟨KeyCode.char 'x', KeyEventKind.press⟩ = ⟨ScreenState.cpu, false, false⟩
    ∧ TuiApp.handleKey ⟨ScreenState.cpu, false, false⟩
        ⟨KeyCode.other, KeyEventKind.press⟩ = ⟨ScreenState.cpu, false, false⟩ :=
  let h := screen_navigation ⟨ScreenState.cpu, false, false⟩ 'x' 9
  ⟨h.1, h.2.1 (by norm_num), h.2.2.1 (by decide), h.2.2.2⟩

/-- Enum `StateMessage` (`tui/state.rs`). -/
inductive StateMessage where
  | setScreen (s : ScreenState)
  | update
  | exitMsg
  | errorMsg (msg : String)
deriving DecidableEq, Repr

/-- Whether `self.tick()` completes or panics (the loop wraps it in
`catch_unwind`). -/
inductive TickOutcome where
  | ok
  | panics
deriving DecidableEq, Repr

/-- Whether a `self.draw()` call succeeds or returns an error. -/
inductive DrawOutcome where
  | ok
  | fails
deriving DecidableEq, Repr

/-- The environment of one iteration of `TuiApp::run`'s loop: the messages
drained from the channel, the polled key event (if any), whether the tick
interval elapsed, and the outcomes of the fallible calls in this
iteration. -/
structure IterInput where
  msgs : List StateMessage
  key : Option KeyEvent
  tickDue : Bool
  tickOutcome : TickOutcome
  drawOutcome : DrawOutcome
  msgDrawOutcome : DrawOutcome

/-- The message-drain loop at the top of `TuiApp::run`: `SetScreen` switches
the screen, `Update` redraws (its `draw()?` propagates a failure out of
`run`), `Exit` and `Error` request exit. -/
def processMsgs (msgDraw : DrawOutcome) : NavState → List StateMessage → Except String NavState
  | st, [] => Except.ok st
  | st, msg :: rest =>
      match msg with
      | StateMessage.setScreen s => processMsgs msgDraw { st with currentScreen := s } rest
      | StateMessage.update =>
          (match msgDraw with
            | DrawOutcome.ok => processMsgs msgDraw st rest
            | DrawOutcome.fails => Except.error "draw failed")
      | StateMessage.exitMsg => processMsgs msgDraw { st with shouldExit := true } rest
      | StateMessage.errorMsg _ => processMsgs msgDraw { st with shouldExit := true } rest

/-- One iteration of the `run` loop. `Except.error` means `run` returns
`Err` (a propagated draw failure); `Except.ok none` means the loop broke
(`run` returns `Ok`); `Except.ok (some st)` continues. A tick panic is
caught (`catch_unwind`) and converted to an exit request, as is a draw
failure in the tick branch. -/
def loopIter (st : NavState) (input : IterInput) : Except String (Option NavState) :=
  match processMsgs input.msgDrawOutcome st input.msgs with
  | Except.error e => Except.error e
  | Except.ok st1 =>
      if st1.shouldExit then Except.ok none
      else
        let st2 := match input.key with
          | some k => TuiApp.handleKey st1 k
          | none => st1
        if st2.screenChanged || input.tickDue then
          let st3 := match input.tickOutcome with
            | TickOutcome.ok => st2
            | TickOutcome.panics => { st2 with shouldExit := true }
          let st4 := match input.drawOutcome with
            | DrawOutcome.ok => st3
            | DrawOutcome.fails => { st3 with shouldExit := true }
          Except.ok (some { st4 with screenChanged := false })
        else Except.ok (some st2)

/-- `TuiApp::run`'s loop over a finite trace of iteration environments;
`none` means the trace ended with the loop still running. -/
def runLoop (st : NavState) : List IterInput → Option (Except String Unit)
  | [] => none
  | input :: rest =>
      match loopIter st input with
      | Except.error e => some (Except.error e)
      | Except.ok none => some (Except.ok ())
      | Except.ok (some st1) => runLoop st1 rest

/-- The terminal resource: `TuiApp::new` puts it in raw/alternate-screen
mode; `Drop for TuiApp` restores it and is counted. -/
structure Terminal where
  raw : Bool
  teardowns : Nat
deriving DecidableEq, Repr

/-- `Drop for TuiApp`: leave raw mode, restore the main screen, show the
cursor. -/
def teardownTerminal (t : Terminal) : Terminal :=
  { raw := false, teardowns := t.teardowns + 1 }

/-- The whole TUI session, modelling `let mut app = TuiApp::new()?;
app.run()?;` in `main`: construction puts the terminal in raw mode, and
Rust's scope-based destruction runs `Drop for TuiApp` exactly once when
`app` goes out of scope — after `run` returns `Ok`, after `?` propagates
its `Err`, and during unwind. `initialDraw` is the `self.draw()?` before
the loop. The session result is `none` when the input trace ends with the
loop still running (no exit route taken). -/
def tuiSession (initialDraw : DrawOutcome) (inputs : List IterInput) :
    Option (Except String Unit × Terminal) :=
  let term0 : Terminal := { raw := true, teardowns := 0 }
  match initialDraw with
  | DrawOutcome.fails => some (Except.error "draw failed", teardownTerminal term0)
  | DrawOutcome.ok =>
      match runLoop ⟨ScreenState.all, false, false⟩ inputs with
      | some res => some (res, teardownTerminal term0)
      | none => none

/-- A loop iteration in which the tick interval has elapsed and `self.tick()`
panics, with nothing else going on. -/
def panicTickIter : IterInput :=
  { msgs := [], key := none, tickDue := true, tickOutcome := TickOutcome.panics,
    drawOutcome := DrawOutcome.ok, msgDrawOutcome := DrawOutcome.ok }

/-- A quiet loop iteration (no messages, no input, tick not due). -/
def quietIter : IterInput :=
  { msgs := [], key := none, tickDue := false, tickOutcome := TickOutcome.ok,
    drawOutcome := DrawOutcome.ok, msgDrawOutcome := DrawOutcome.ok }

/-- C7: on every exit route of the interactive loop — normal exit, a
propagated draw error, and in particular the route where `self.tick()`
panics during the tick step — the terminal teardown runs exactly once
before the session ends and the terminal is out of raw mode; moreover the
tick-panic route does exit the loop (with `run` returning `Ok`, the panic
having been caught and converted to an exit request). -/
theorem tui_teardown_guarantee (initialDraw : DrawOutcome) (inputs rest : List IterInput)
    (out : Except String Unit × Terminal) :
    (tuiSession initialDraw inputs = some out →
      out.2.teardowns = 1 ∧ out.2.raw = false)
    ∧ tuiSession DrawOutcome.ok (panicTickIter :: quietIter :: rest)
        = some (Except.ok (), ⟨false, 1⟩) := by
  constructor
  · intro h
    cases initialDraw with
    | fails =>
      simp only [tuiSession] at h
      cases h
      exact ⟨rfl, rfl⟩
    | ok =>
      simp only [tuiSession] at h
      cases hr : runLoop ⟨ScreenState.all, false, false⟩ inputs with
      | none => rw [hr] at h; cases h
      | some res =>
        rw [hr] at h
        cases h
        exact ⟨rfl, rfl⟩
  · rfl

/-- Witness for `tui_teardown_guarantee`: the route where the very first
draw fails and `run` is never entered still tears down exactly once. -/
theorem tui_teardown_guarantee_witness :
    ((Except.error "draw failed" : Except String Unit), (⟨false, 1⟩ : Terminal)).2.teardowns = 1
    ∧ ((Except.error "draw failed" : Except String Unit), (⟨false, 1⟩ : Terminal)).2.raw = false :=
  (tui_teardown_guarantee DrawOutcome.fails [] []
    ((Except.error "draw failed" : Except String Unit), ⟨false, 1⟩)).1 rfl

/-! ### Board identity (`src/modules/hardware.rs`)

Rust `str::find` returns a byte index; on the ASCII pseudo-file contents
involved it coincides with the character index used here. -/

/-- Index of the first occurrence of a character (Rust `str::find(char)`). -/
def findCharIdx (c : Char) : List Char → Option Nat
  | [] => none
  | x :: t => if x = c then some 0 else (findCharIdx c t).map (· + 1)

/-- Index of the first occurrence of a substring (Rust `str::find(&str)`). -/
def findSubIdx (needle : List Char) : List Char → Option Nat
  | [] => if needle.isEmpty then some 0 else none
  | h :: t => if needle.isPrefixOf (h :: t) then some 0 else (findSubIdx needle t).map (· + 1)

/-- Index of the first occurrence of any of the characters (Rust
`str::find(['a', 'b', …])`). -/
def findFirstOfIdx (cs : List Char) : List Char → Option Nat
  | [] => none
  | x :: t => if cs.contains x then some 0 else (findFirstOfIdx cs t).map (· + 1)

/-- Rust `str::starts_with(char)`. -/
def startsWithChar (s : String) (c : Char) : Bool :=
  match s.toList with
  | x :: _ => x = c
  | [] => false

/-- Rust `trim_end_matches('\0')`: drop all trailing NUL characters. -/
def dropTrailingNulls (l : List Char) : List Char :=
  (l.reverse.dropWhile (· = '\x00')).reverse

/-- Struct `BoardInfo`. -/
structure BoardInfo where
  model : String
  jetpack : String
  l4t : String
  serial : String
deriving DecidableEq, Repr

/-- `BoardInfo::default()`. -/
def BoardInfo.defaultInfo : BoardInfo :=
  { model := "Unknown Jetson Board", jetpack := "Unknown", l4t := "Unknown", serial := "Unknown" }

/-- The static L4T-version → JetPack-label table of
`derive_jetpack_from_l4t`, in source order (keys are unique). -/
def l4tJetpackTable : List (String × String) :=
  [("38.4.4", "7.1"), ("38.4.3", "7.1"), ("38.4.2", "7.1"), ("38.4.1", "7.1"),
   ("38.4", "7.1"), ("38.2.1", "7.0"), ("38.2", "7.0"), ("38.1", "7.0"),
   ("38.0", "7.0"), ("36.4.7", "6.2.1"), ("36.4.6", "6.2.1"), ("36.4.5", "6.2.1"),
   ("36.4.4", "6.2.1"), ("36.4.3", "6.2"), ("36.4.2", "6.2"), ("36.4.1", "6.2"),
   ("36.4", "6.1"), ("36.3", "6.0"), ("36.2", "6.0 DP"), ("36.1", "6.0"),
   ("36.0", "6.0"), ("35.6.2", "5.1.5"), ("35.6.1", "5.1.5"), ("35.6", "5.1.4"),
   ("35.5", "5.1.3"), ("35.4.1", "5.1.2"), ("35.4", "5.1.2"), ("35.3.1", "5.1.1"),
   ("35.3", "5.1.1"), ("35.2.1", "5.1"), ("35.2", "5.1"), ("35.1", "5.1"),
   ("35.0", "5.1"), ("34.1.1", "5.0.1 DP"), ("34.1", "5.0 DP"), ("34.0", "5.0 DP"),
   ("32.7.6", "4.6.6"), ("32.7.5", "4.6.5"), ("32.7.4", "4.6.4"), ("32.7.3", "4.6.3"),
   ("32.7.2", "4.6.2"), ("32.7.1", "4.6.1"), ("32.7", "4.6.x"), ("32.6.1", "4.6"),
   ("32.6", "4.6"), ("32.5.1", "4.5.1"), ("32.5", "4.5"), ("32.4.4", "4.4.1"),
   ("32.4.3", "4.4"), ("32.4.2", "4.4 DP"), ("32.4", "4.4"), ("32.3.1", "4.3"),
   ("32.3", "4.3"), ("32.2.1", "4.2.3"), ("32.2", "4.2.2"), ("32.1.1", "4.1.1 DP"),
   ("32.1", "4.1"), ("31.1", "4.1 DP"), ("31.0", "4.1 DP"), ("28.5", "3.3.4"),
   ("28.4", "3.3.3"), ("28.3.2", "3.3.2"), ("28.3.1", "3.3.1"), ("28.3", "3.3.2"),
   ("28.2.1", "3.3"), ("28.2", "3.2.1"), ("27.1", "3.0"), ("26.0", "3.0"),
   ("25.0", "3.0"), ("24.2.1", "2.3.1"), ("24.1", "2.3"), ("23.0", "2.3"),
   ("22.0", "2.3"), ("21.5", "2.3.1"), ("21.0", "2.3")]

/-- HashMap `get` over the (unique-key) table. -/
def tableLookup (table : List (String × String)) (key : String) : Option String :=
  (table.find? (fun p => p.1 == key)).map Prod.snd

/-- The exact lookup key `derive_jetpack_from_l4t` builds: the version
truncated to its first three dot-separated components (or two, when only
two exist); `none` when there are fewer than two components. -/
def truncatedL4tKey (l4t : String) : Option String :=
  let parts := splitAllStr l4t '.'
  if parts.length < 2 then none
  else if parts.length ≥ 3 then
    some (parts.getD 0 "" ++ "." ++ parts.getD 1 "" ++ "." ++ parts.getD 2 "")
  else some (parts.getD 0 "" ++ "." ++ parts.getD 1 "")

/-- `derive_jetpack_from_l4t` (`src/modules/hardware.rs`). -/
def derive_jetpack_from_l4t (l4t : String) : String :=
  match truncatedL4tKey l4t with
  | none => "Unknown"
  | some key => (tableLookup l4tJetpackTable key).getD "Unknown"

/-- C8 counterexample: the table lookup is an exact match on the truncated
key, not a nearest-prefix match: "38.4.5" has no exact entry and yields
"Unknown", although the shorter prefix "38.4" is in the table with label
"7.1" (which the claim says should be the result). -/
theorem derive_jetpack_prefix_counterexample :
    derive_jetpack_from_l4t "38.4.5" = "Unknown"
    ∧ tableLookup l4tJetpackTable "38.4" = some "7.1"
    ∧ ("Unknown" : String) ≠ "7.1" := by
  refine ⟨by decide, by decide, by decide⟩

/-- C8 (amended): the JetPack label is derived by an *exact* table lookup of
the L4T version truncated to its first three (or only two) dot-separated
components: any version whose truncated key misses the table — including
one that merely extends a shorter known prefix, such as "38.4.5" over the
table's "38.4" — yields the explicit label "Unknown", never a guess; a
version with a fourth component does resolve via its three-component
truncation (e.g. "38.4.4.1" → "7.1"). -/
theorem derive_jetpack_exact_lookup (l4t : String) :
    (derive_jetpack_from_l4t l4t = "Unknown"
      ∨ ∃ key, truncatedL4tKey l4t = some key
          ∧ tableLookup l4tJetpackTable key = some (derive_jetpack_from_l4t l4t))
    ∧ (∀ key lbl, truncatedL4tKey l4t = some key →
        tableLookup l4tJetpackTable key = some lbl →
        derive_jetpack_from_l4t l4t = lbl)
    ∧ (truncatedL4tKey l4t = none → derive_jetpack_from_l4t l4t = "Unknown")
    ∧ (∀ key, truncatedL4tKey l4t = some key →
        tableLookup l4tJetpackTable key = none →
        derive_jetpack_from_l4t l4t = "Unknown")
    ∧ derive_jetpack_from_l4t "38.4.4.1" = "7.1" := by
  refine ⟨?_, fun key lbl hk hl => ?_, fun hk => ?_, fun key hk hl => ?_, by decide⟩
  · cases hk : truncatedL4tKey l4t with
    | none => exact Or.inl (by simp [derive_jetpack_from_l4t, hk])
    | some key =>
      cases hl : tableLookup l4tJetpackTable key with
      | none => exact Or.inl (by simp [derive_jetpack_from_l4t, hk, hl])
      | some lbl =>
        exact Or.inr ⟨key, rfl, by simp [derive_jetpack_from_l4t, hk, hl]⟩
  · simp [derive_jetpack_from_l4t, hk, hl]
  · simp [derive_jetpack_from_l4t, hk]
  · simp [derive_jetpack_from_l4t, hk, hl]

/-- Witness for `derive_jetpack_exact_lookup`: "36.3" resolves to "6.0"
through the exact-lookup branch. -/
theorem derive_jetpack_exact_lookup_witness :
    derive_jetpack_from_l4t "36.3" = "6.0" :=
  (derive_jetpack_exact_lookup "36.3").2.1 "36.3" "6.0" (by decide) (by decide)

/-- `parse_l4t_from_comment`: recover the L4T version from a comment line
like `# R36 (release), REVISION: 4.3, …` when none is known yet. -/
def parse_l4t_from_comment (line currentL4t : String) : String :=
  let l := line.toList
  if currentL4t.isEmpty && strContainsStr line "R" then
    match findCharIdx 'R' l with
    | some start =>
        let rest := l.drop (start + 1)
        match findCharIdx ' ' rest with
        | some endIdx =>
            let releaseNum := (rustParseUnsigned (2 ^ 32) (String.mk (rest.take endIdx))).getD 0
            if releaseNum ≥ 20 then
              let withRevision :=
                if strContainsStr line "REVISION:" then
                  match findSubIdx "REVISION:".toList l with
                  | some revStart =>
                      let rest2 := l.drop (revStart + 9)
                      (match findCharIdx ',' rest2 with
                        | some revEnd =>
                            some (toString releaseNum ++ "."
                              ++ trimStr (String.mk (rest2.take revEnd)))
                        | none => none)
                  | none => none
                else none
              match withRevision with
              | some s => s
              | none => toString releaseNum ++ ".0"
            else currentL4t
        | none => currentL4t
    | none => currentL4t
  else currentL4t

/-- `parse_jetpack_from_comment`. -/
def parse_jetpack_from_comment (line currentJetpack : String) : String :=
  if ¬currentJetpack.isEmpty then currentJetpack
  else if strContainsStr line "JETPACK_VERSION=" then
    match findSubIdx "JETPACK_VERSION=".toList line.toList with
    | some start =>
        let rest := line.toList.drop (start + 16)
        let endIdx := (findFirstOfIdx [',', ' ', '\n'] rest).getD rest.length
        trimStr (String.mk (rest.take endIdx))
    | none => currentJetpack
  else currentJetpack

/-- `parse_board_from_comment`: board model from a `… BOARD: name` comment;
"generic" and empty names are rejected. -/
def parse_board_from_comment (line : String) : Option String :=
  if strContainsStr line "BOARD:" then
    match findSubIdx "BOARD:".toList line.toList with
    | some start =>
        let rest := line.toList.drop (start + 6)
        let endIdx :=
          match findCharIdx ',' rest with
          | some e => e
          | none =>
              (match findCharIdx '\n' rest with
                | some e => e
                | none => rest.length)
        let board := trimStr (String.mk (rest.take endIdx))
        if board ≠ "generic" ∧ ¬board.isEmpty then some board else none
    | none => none
  else none

/-- The line loop of `parse_l4t_version`. -/
def parseL4tVersionLines : List String → String
  | [] => ""
  | line :: rest =>
      match splitOnceStr line '=' with
      | some (key, value) =>
          if trimStr key == "L4T_VERSION" then trimStr value else parseL4tVersionLines rest
      | none =>
          if startsWithChar line '#' then
            let l4t := parse_l4t_from_comment line ""
            if ¬l4t.isEmpty then l4t else parseL4tVersionLines rest
          else parseL4tVersionLines rest

/-- `parse_l4t_version`. -/
def parse_l4t_version (content : String) : String :=
  parseL4tVersionLines (rustLines content)

/-- The line loop of `parse_jetpack_version`. -/
def parseJetpackVersionLines : List String → String
  | [] => ""
  | line :: rest =>
      match splitOnceStr line '=' with
      | some (key, value) =>
          if trimStr key == "JETPACK_VERSION" then trimStr value else parseJetpackVersionLines rest
      | none =>
          if startsWithChar line '#' then
            let jp := parse_jetpack_from_comment line ""
            if ¬jp.isEmpty then jp else parseJetpackVersionLines rest
          else parseJetpackVersionLines rest

/-- `parse_jetpack_version`. -/
def parse_jetpack_version (content : String) : String :=
  parseJetpackVersionLines (rustLines content)

/-- `detect_board_model`: device-tree model string, NUL-stripped and
trimmed; empty or unreadable falls back to "Unknown Jetson Board". -/
def detect_board_model (fs : SysFs) : String :=
  match fs.read "/sys/firmware/devicetree/base/model" with
  | some model =>
      let m := trimStr (String.mk (dropTrailingNulls model.toList))
      if ¬m.isEmpty then m else "Unknown Jetson Board"
  | none => "Unknown Jetson Board"

/-- The `compatible`-id → model-name pairs of `detect_model_from_compatible`,
in the source's if/else-if priority order. -/
def compatiblePatterns : List (String × String) :=
  [("nvidia,p3772", "Jetson Xavier NX"), ("nvidia,p3668", "Jetson TX2 NX"),
   ("nvidia,p3509", "Jetson Nano"), ("nvidia,p3701", "Jetson AGX Orin"),
   ("nvidia,p2888", "Jetson TX1"), ("nvidia,p2972", "Jetson AGX Xavier"),
   ("nvidia,tegra264", "Jetson Thor")]

/-- The per-string if/else-if chain of `detect_model_from_compatible`. -/
def matchCompatibleStr (s : String) : Option String :=
  (compatiblePatterns.find? (fun p => strContainsStr s p.1)).map Prod.snd

/-- The loop of `detect_model_from_compatible` over the NUL-separated
compatible strings: skip empties, return the first match. -/
def firstCompatibleMatch : List String → Option String
  | [] => none
  | s :: rest =>
      if s.isEmpty then firstCompatibleMatch rest
      else
        match matchCompatibleStr s with
        | some m => some m
        | none => firstCompatibleMatch rest

/-- `detect_model_from_compatible`. -/
def detect_model_from_compatible (fs : SysFs) : String :=
  match fs.read "/sys/firmware/devicetree/base/compatible" with
  | some compatible =>
      (firstCompatibleMatch (splitAllStr compatible '\x00')).getD "Unknown Jetson Board"
  | none => "Unknown Jetson Board"

/-- `detect_serial_number`: device-tree serial, NUL-stripped and trimmed;
empty or unreadable falls back to "Unknown". -/
def detect_serial_number (fs : SysFs) : String :=
  match fs.read "/sys/firmware/devicetree/base/serial-number" with
  | some serial =>
      let s := trimStr (String.mk (dropTrailingNulls serial.toList))
      if ¬s.isEmpty then s else "Unknown"
  | none => "Unknown"

/-- One line of `detect_board`'s release-file loop, threading the BoardInfo
and the `found_board` flag. -/
def releaseLineStep : BoardInfo × Bool → String → BoardInfo × Bool
  | (info, foundBoard), line =>
      match splitOnceStr line '=' with
      | some (key, value) =>
          let k := trimStr key
          if k == "BOARD" then ({ info with model := trimStr value }, true)
          else if k == "SERIAL_NUMBER" then ({ info with serial := trimStr value }, foundBoard)
          else (info, foundBoard)
      | none =>
          if startsWithChar line '#' then
            let info1 := { info with l4t := parse_l4t_from_comment line info.l4t }
            let info2 := { info1 with jetpack := parse_jetpack_from_comment line info1.jetpack }
            if ¬foundBoard then
              match parse_board_from_comment line with
              | some board => ({ info2 with model := board }, true)
              | none => (info2, foundBoard)
            else (info2, foundBoard)
          else (info, foundBoard)

/-- The release-file phase of `detect_board` (`/etc/nv_tegra_release`):
the defaults, the two whole-content parses, then the line loop. -/
def releaseInfo (fs : SysFs) : BoardInfo :=
  match fs.read "/etc/nv_tegra_release" with
  | some content =>
      let info0 := { BoardInfo.defaultInfo with
        l4t := parse_l4t_version content, jetpack := parse_jetpack_version content }
      ((rustLines content).foldl releaseLineStep (info0, false)).1
  | none => BoardInfo.defaultInfo

/-- The JetPack-derivation step of `detect_board`. -/
def jetpackStep (info : BoardInfo) : BoardInfo :=
  if (info.jetpack = "" ∨ info.jetpack = "Unknown") ∧ info.l4t ≠ "" then
    { info with jetpack := derive_jetpack_from_l4t info.l4t }
  else info

/-- The device-tree model fallback step of `detect_board`. -/
def modelDtStep (fs : SysFs) (info : BoardInfo) : BoardInfo :=
  if info.model = "Unknown Jetson Board" ∨ info.model = "" then
    { info with model := detect_board_model fs }
  else info

/-- The compatible-heuristic model fallback step of `detect_board`. -/
def modelCompatStep (fs : SysFs) (info : BoardInfo) : BoardInfo :=
  if info.model = "Unknown Jetson Board" ∨ info.model = "" then
    { info with model := detect_model_from_compatible fs }
  else info

/-- The device-tree serial fallback step of `detect_board`. -/
def serialStep (fs : SysFs) (info : BoardInfo) : BoardInfo :=
  if info.serial = "Unknown" ∨ info.serial = "" then
    { info with serial := detect_serial_number fs }
  else info

/-- `detect_board` (`src/modules/hardware.rs`): the release file first, then
the fixed fallback sequence. -/
def detect_board (fs : SysFs) : BoardInfo :=
  serialStep fs (modelCompatStep fs (modelDtStep fs (jetpackStep (releaseInfo fs))))

lemma jetpackStep_model (info : BoardInfo) : (jetpackStep info).model = info.model := by
  unfold jetpackStep; split <;> rfl

lemma jetpackStep_serial (info : BoardInfo) : (jetpackStep info).serial = info.serial := by
  unfold jetpackStep; split <;> rfl

lemma modelDtStep_serial (fs : SysFs) (info : BoardInfo) :
    (modelDtStep fs info).serial = info.serial := by
  unfold modelDtStep; split <;> rfl

lemma modelCompatStep_serial (fs : SysFs) (info : BoardInfo) :
    (modelCompatStep fs info).serial = info.serial := by
  unfold modelCompatStep; split <;> rfl

lemma serialStep_model (fs : SysFs) (info : BoardInfo) :
    (serialStep fs info).model = info.model := by
  unfold serialStep; split <;> rfl

/-- C9: board-identity fields are filled in a fixed precedence and a
higher-precedence value is never overwritten: a usable model from the
release file survives to the result; only when the release model is still
unknown/empty is the device-tree model used; only when that is also
unknown/empty does the `compatible` heuristic decide; and a usable serial
from the release file likewise survives, the device-tree serial being
consulted only otherwise. -/
theorem board_identity_precedence (fs : SysFs) :
    ((releaseInfo fs).model ≠ "Unknown Jetson Board" → (releaseInfo fs).model ≠ "" →
        (detect_board fs).model = (releaseInfo fs).model)
    ∧ (((releaseInfo fs).model = "Unknown Jetson Board" ∨ (releaseInfo fs).model = "") →
        detect_board_model fs ≠ "Unknown Jetson Board" → detect_board_model fs ≠ "" →
        (detect_board fs).model = detect_board_model fs)
    ∧ (((releaseInfo fs).model = "Unknown Jetson Board" ∨ (releaseInfo fs).model = "") →
        (detect_board_model fs = "Unknown Jetson Board" ∨ detect_board_model fs = "") →
        (detect_board fs).model = detect_model_from_compatible fs)
    ∧ ((releaseInfo fs).serial ≠ "Unknown" → (releaseInfo fs).serial ≠ "" →
        (detect_board fs).serial = (releaseInfo fs).serial) := by
  have hm1 : (jetpackStep (releaseInfo fs)).model = (releaseInfo fs).model :=
    jetpackStep_model _
  refine ⟨fun h1 h2 => ?_, fun h1 h2 h3 => ?_, fun h1 h2 => ?_, fun h1 h2 => ?_⟩
  · rw [detect_board, serialStep_model]
    rw [modelCompatStep, if_neg, modelDtStep, if_neg] <;>
      simp [modelDtStep, hm1, h1, h2]
  · rw [detect_board, serialStep_model]
    rw [modelCompatStep, if_neg]
    · rw [modelDtStep, if_pos (by rw [hm1]; exact h1)]
    · rw [modelDtStep, if_pos (by rw [hm1]; exact h1)]
      simp [h2, h3]
  · have hdt : modelDtStep fs (jetpackStep (releaseInfo fs))
        = { jetpackStep (releaseInfo fs) with model := detect_board_model fs } := by
      rw [modelDtStep, if_pos (by rw [hm1]; exact h1)]
    have hpos : (modelDtStep fs (jetpackStep (releaseInfo fs))).model = "Unknown Jetson Board"
        ∨ (modelDtStep fs (jetpackStep (releaseInfo fs))).model = "" := by
      rw [hdt]
      simpa using h2
    rw [detect_board, serialStep_model, modelCompatStep, if_pos hpos]
  · rw [detect_board, serialStep, if_neg]
    · rw [modelCompatStep_serial, modelDtStep_serial, jetpackStep_serial]
    · rw [modelCompatStep_serial, modelDtStep_serial, jetpackStep_serial]
      simp [h1, h2]

/-- The release file used by the C9 witness: a usable BOARD and
SERIAL_NUMBER line. -/
def boardFsSample : SysFs :=
  { read := fun p =>
      if p = "/etc/nv_tegra_release" then some "BOARD=p3701\nSERIAL_NUMBER=XYZ123" else none,
    dirExists := fun _ => false,
    dirEntries := fun _ => [] }

/-- Witness for `board_identity_precedence`: with `BOARD=p3701` and
`SERIAL_NUMBER=XYZ123` in the release file, both survive to the result. -/
theorem board_identity_precedence_witness :
    (detect_board boardFsSample).model = (releaseInfo boardFsSample).model
    ∧ (detect_board boardFsSample).serial = (releaseInfo boardFsSample).serial :=
  ⟨(board_identity_precedence boardFsSample).1 (by decide) (by decide),
    (board_identity_precedence boardFsSample).2.2.2 (by decide) (by decide)⟩

end RustedJetson
